import Mathlib

/-
Verification of the FMR/Census join-and-metric pipeline.

The pipeline (fmr_census.py) loads a county attribute table (Census ACS
data) and a Fair-Market-Rent table, both keyed by a 5-digit GEOID string,
merges them and derives per-county affordability metrics.  Cell values in
the dataframes are floating-point numbers that can also be NaN (missing)
or plus/minus infinity; we embed them as the type PVal below, with the
NumPy/pandas arithmetic rules made explicit.  Floats are modelled as exact
rationals; NaN models a missing value (pandas null).
-/

namespace FmrCensus

/-- Value of one dataframe cell: a finite number, plus or minus infinity,
or NaN (the pandas representation of a missing value). -/
inductive PVal where
  | num (q : ℚ)
  | inf
  | ninf
  | nan
deriving DecidableEq

namespace PVal

/-- Addition with the IEEE rules used by NumPy: NaN absorbs, and the sum
of opposite infinities is NaN. -/
def add : PVal → PVal → PVal
  | num a, num b => num (a + b)
  | num _, inf => inf
  | num _, ninf => ninf
  | inf, num _ => inf
  | ninf, num _ => ninf
  | inf, inf => inf
  | ninf, ninf => ninf
  | inf, ninf => nan
  | ninf, inf => nan
  | _, _ => nan

/-- Subtraction with the IEEE rules used by NumPy. -/
def sub : PVal → PVal → PVal
  | num a, num b => num (a - b)
  | num _, inf => ninf
  | num _, ninf => inf
  | inf, num _ => inf
  | ninf, num _ => ninf
  | inf, ninf => inf
  | ninf, inf => ninf
  | inf, inf => nan
  | ninf, ninf => nan
  | _, _ => nan

/-- Multiplication with the IEEE rules used by NumPy: infinity times zero
is NaN, otherwise signs multiply. -/
def mul : PVal → PVal → PVal
  | num a, num b => num (a * b)
  | num a, inf => if 0 < a then inf else if a < 0 then ninf else nan
  | num a, ninf => if 0 < a then ninf else if a < 0 then inf else nan
  | inf, num b => if 0 < b then inf else if b < 0 then ninf else nan
  | ninf, num b => if 0 < b then ninf else if b < 0 then inf else nan
  | inf, inf => inf
  | inf, ninf => ninf
  | ninf, inf => ninf
  | ninf, ninf => inf
  | _, _ => nan

/-- Division with the IEEE rules used by NumPy: a nonzero number divided
by zero gives a signed infinity, zero divided by zero gives NaN; a finite
number divided by an infinity gives zero.  NumPy emits a warning on
division by zero but never raises, so the operation is total. -/
def div : PVal → PVal → PVal
  | num a, num b =>
      if b = 0 then (if 0 < a then inf else if a < 0 then ninf else nan)
      else num (a / b)
  | num _, inf => num 0
  | num _, ninf => num 0
  | inf, num b => if b < 0 then ninf else inf
  | ninf, num b => if b < 0 then inf else ninf
  | _, _ => nan

/-- Elementwise comparison with zero, as in a pandas `series == 0` test:
NaN and the infinities compare unequal to zero. -/
def eqZero : PVal → Bool
  | num a => decide (a = 0)
  | _ => false

/-- Strict less-than on cells, with NaN incomparable (as in Python float
comparison, where every comparison against NaN is False). -/
def ltb : PVal → PVal → Bool
  | num a, num b => decide (a < b)
  | num _, inf => true
  | ninf, num _ => true
  | ninf, inf => true
  | _, _ => false

/-- Python `max(x, 0)` as used in the affordability-gap lambda: returns 0
exactly when `0 > x`; in particular `max(nan, 0)` returns NaN. -/
def pyMax0 (x : PVal) : PVal :=
  if ltb x (num 0) then num 0 else x

/-- The pandas `fillna(0)` policy on one cell: NaN becomes 0, every other
value is kept. -/
def fillna0 : PVal → PVal
  | nan => num 0
  | x => x

/-- The pandas `replace([inf, -inf], 0)` policy on one cell: the two
infinities become 0, every other value (NaN included) is kept. -/
def replaceInf0 : PVal → PVal
  | inf => num 0
  | ninf => num 0
  | x => x

/-- A cell that is not an infinity: what a cell parsed from a CSV of
ordinary numbers and blanks looks like (a finite number or NaN). -/
def notInf : PVal → Bool
  | inf => false
  | ninf => false
  | _ => true

end PVal

open PVal

/-- A row of the county attribute (Census ACS) table, as consumed by
`integrate_data`: the GEOID key, the state FIPS key used by the secondary
minimum-wage join, and the numeric columns the pipeline reads. -/
structure CensusRecord where
  GEOID : String
  state_fips : String
  median_gross_rent : PVal
  median_household_income : PVal
  rent_30_to_34_9_percent : PVal
  rent_35_to_39_9_percent : PVal
  rent_40_to_49_9_percent : PVal
  rent_50_percent_or_more : PVal
  total_renter_households_cost : PVal

/-- A row of the Fair-Market-Rent table as returned by `load_fmr_data`:
the GEOID key, the name and geometry columns, and the five rent columns
`fmr_0` .. `fmr_4` modelled as a function on bedroom counts. -/
structure FmrRecord where
  GEOID : String
  county_name : String
  state_name : String
  fmr : Fin 5 → PVal
  geometry : String

/-- A row of the state minimum wage table `minimum_wage_by_state.csv`
(only the two columns the pipeline selects). -/
structure MinWageRecord where
  state_fips : String
  min_wage : PVal

/-- A row of `pd.merge(df_census, df_fmr, on="GEOID", how="left")`: the
census row together with the matching FMR row, or no FMR row when the
GEOID has no match (its FMR columns are then NaN). -/
structure MergedRow where
  census : CensusRecord
  fmrMatch : Option FmrRecord

/-- The left merge on GEOID: every census row is kept, paired with each
matching FMR row; a census row without a match is kept once, with no FMR
data.  FMR rows without a matching census row are dropped. -/
def mergeLeft (df_census : List CensusRecord) (df_fmr : List FmrRecord) : List MergedRow :=
  df_census.flatMap fun c =>
    if (df_fmr.filter fun f => f.GEOID == c.GEOID).isEmpty then [⟨c, none⟩]
    else (df_fmr.filter fun f => f.GEOID == c.GEOID).map fun f => ⟨c, some f⟩

/-- A merged row after `df_integrated.fillna(0, inplace=True)`: every NaN
cell has been replaced by 0; FMR columns of an unmatched row, which were
NaN after the merge, are 0. -/
structure FilledRow where
  GEOID : String
  state_fips : String
  median_gross_rent : PVal
  median_household_income : PVal
  rent_30_to_34_9_percent : PVal
  rent_35_to_39_9_percent : PVal
  rent_40_to_49_9_percent : PVal
  rent_50_percent_or_more : PVal
  total_renter_households_cost : PVal
  fmr : Fin 5 → PVal

/-- Applies the fill-with-zero policy to one merged row. -/
def fillRow (m : MergedRow) : FilledRow where
  GEOID := m.census.GEOID
  state_fips := m.census.state_fips
  median_gross_rent := m.census.median_gross_rent.fillna0
  median_household_income := m.census.median_household_income.fillna0
  rent_30_to_34_9_percent := m.census.rent_30_to_34_9_percent.fillna0
  rent_35_to_39_9_percent := m.census.rent_35_to_39_9_percent.fillna0
  rent_40_to_49_9_percent := m.census.rent_40_to_49_9_percent.fillna0
  rent_50_percent_or_more := m.census.rent_50_percent_or_more.fillna0
  total_renter_households_cost := m.census.total_renter_households_cost.fillna0
  fmr := fun b => (match m.fmrMatch with
    | some f => f.fmr b
    | none => PVal.nan).fillna0

/-- The loop body at lines 45-48 of fmr_census.py run for beds = 0..4:
each iteration executes
`median_gross_rent = np.where(fmr_beds == 0, nan, median_gross_rent)`,
so after the loop the column is NaN on every row where some FMR figure is
zero and untouched elsewhere. -/
def mgrAfterLoop (fr : FilledRow) : PVal :=
  (([0, 1, 2, 3, 4] : List (Fin 5)).foldl
    (fun m beds => if (fr.fmr beds).eqZero then PVal.nan else m))
    fr.median_gross_rent

/-- One row of the final integrated table, with every column
`integrate_data` writes.  The per-bedroom column families
(`rent_to_income_ratio_0` .. `_4` and so on) are modelled as functions on
the bedroom count. -/
structure IntegratedRecord where
  GEOID : String
  state_fips : String
  min_wage : PVal
  median_gross_rent : PVal
  median_household_income : PVal
  rent_30_to_34_9_percent : PVal
  rent_35_to_39_9_percent : PVal
  rent_40_to_49_9_percent : PVal
  rent_50_percent_or_more : PVal
  total_renter_households_cost : PVal
  fmr : Fin 5 → PVal
  rent_to_income_ratio : Fin 5 → PVal
  pct_cost_burdened : PVal
  pct_severe_cost_burdened : PVal
  fmr_vs_median_rent_diff : Fin 5 → PVal
  fmr_vs_median_rent_percent : Fin 5 → PVal
  affordability_gap : Fin 5 → PVal
  voucher_feasibility : Fin 5 → PVal
  housing_wage : Fin 5 → PVal
  housing_wage_to_min_wage : Fin 5 → PVal

/-- Computes every derived column of `integrate_data` for one row, given
the filled row and the `min_wage` cell contributed by the secondary merge
(the merge itself only appends that cell; every other column is computed
from the row, so computing all columns here is equivalent to the order in
the source, where the minimum-wage merge happens after the gap loop and
before the voucher loop). -/
def computeRow (fr : FilledRow) (min_wage : PVal) : IntegratedRecord :=
  let mgrF := mgrAfterLoop fr
  { GEOID := fr.GEOID
    state_fips := fr.state_fips
    min_wage := min_wage
    median_gross_rent := mgrF
    median_household_income := fr.median_household_income
    rent_30_to_34_9_percent := fr.rent_30_to_34_9_percent
    rent_35_to_39_9_percent := fr.rent_35_to_39_9_percent
    rent_40_to_49_9_percent := fr.rent_40_to_49_9_percent
    rent_50_percent_or_more := fr.rent_50_percent_or_more
    total_renter_households_cost := fr.total_renter_households_cost
    fmr := fr.fmr
    rent_to_income_ratio := fun beds =>
      (((fr.fmr beds).mul (num 12)).div fr.median_household_income).mul (num 100)
    pct_cost_burdened :=
      ((((fr.rent_30_to_34_9_percent.add fr.rent_35_to_39_9_percent).add
          fr.rent_40_to_49_9_percent).add fr.rent_50_percent_or_more).div
        fr.total_renter_households_cost).mul (num 100)
    pct_severe_cost_burdened :=
      (fr.rent_50_percent_or_more.div fr.total_renter_households_cost).mul (num 100)
    fmr_vs_median_rent_diff := fun beds => (fr.fmr beds).sub mgrF
    fmr_vs_median_rent_percent := fun beds =>
      if (!mgrF.eqZero) && (!(fr.fmr 1).eqZero) then
        (((fr.fmr beds).sub mgrF).div mgrF).mul (num 100)
      else PVal.nan
    affordability_gap := fun beds =>
      let gap := (((fr.fmr beds).mul (num 12)).sub
        (fr.median_household_income.mul (num (3 / 10)))).pyMax0
      if gap.eqZero then PVal.nan else gap
    voucher_feasibility := fun beds =>
      (((fr.fmr beds).div mgrF).replaceInf0).mul (num 100)
    housing_wage := fun beds => ((fr.fmr beds).mul (num 12)).div (num 2080)
    housing_wage_to_min_wage := fun beds =>
      ((((fr.fmr beds).mul (num 12)).div (num 2080)).div min_wage).mul (num 100) }

/-- The `min_wage` cells contributed to one integrated row by
`min_wage_df[['min_wage', 'state_fips']].merge(df_integrated,
on='state_fips', how='right')`: the right merge keeps each integrated row
once per matching minimum-wage row, and keeps it once with a NaN
`min_wage` when the state has no match. -/
def mwMatches (min_wage_df : List MinWageRecord) (sf : String) : List PVal :=
  if (min_wage_df.filter fun w => w.state_fips == sf).isEmpty then [PVal.nan]
  else (min_wage_df.filter fun w => w.state_fips == sf).map fun w => w.min_wage

/-- The full `integrate_data` pipeline on row lists: left merge of the
census table with the FMR table on GEOID, fill-with-zero, then all derived
columns, with the minimum-wage table (read from CSV in the source) passed
in as a parameter. -/
def integrate_data (df_census : List CensusRecord) (df_fmr : List FmrRecord)
    (min_wage_df : List MinWageRecord) : List IntegratedRecord :=
  (mergeLeft df_census df_fmr).flatMap fun m =>
    (mwMatches min_wage_df (fillRow m).state_fips).map fun w => computeRow (fillRow m) w

/-- Python `str.zfill(width)`: pads the string with leading zeros up to
`width` characters, keeping a leading sign in front of the padding; a
string at least `width` long is returned unchanged.  Both
`get_census_data` and `load_fmr_data` apply `zfill(5)` to every GEOID. -/
def zfill (width : Nat) (s : String) : String :=
  if width ≤ s.length then s
  else if s.startsWith "+" || s.startsWith "-" then
    (s.take 1) ++ String.mk (List.replicate (width - s.length) '0') ++ s.drop 1
  else
    String.mk (List.replicate (width - s.length) '0') ++ s

/-- A census table is CSV-shaped when none of its numeric cells is an
infinity (cells parsed from ordinary CSV numbers and blanks are finite or
NaN). -/
def CensusRecord.csvShaped (c : CensusRecord) : Bool :=
  c.median_gross_rent.notInf && c.median_household_income.notInf &&
  c.rent_30_to_34_9_percent.notInf && c.rent_35_to_39_9_percent.notInf &&
  c.rent_40_to_49_9_percent.notInf && c.rent_50_percent_or_more.notInf &&
  c.total_renter_households_cost.notInf

/-- An FMR row is CSV-shaped when none of its five rent cells is an
infinity. -/
def FmrRecord.csvShaped (f : FmrRecord) : Bool :=
  (([0, 1, 2, 3, 4] : List (Fin 5)).all fun b => (f.fmr b).notInf)

namespace CensusAPIWrapper

/-- What `_make_request` observes of the HTTP response: the status code,
the body text, and the body parsed as JSON rows (header row first). -/
structure HttpResponse where
  status_code : Nat
  text : String
  json : List (List String)

/-- The exceptions `_make_request` can raise: the single generic API
failure `Exception(f"API Request Failed: {status_code} - {text}")`, which
carries the status code and the body text, and the IndexError that
`data[0]` would raise on an empty JSON array. -/
inductive RequestError where
  | apiRequestFailed (status_code : Nat) (body : String)
  | indexError
deriving DecidableEq

/-- The message string of each exception as Python renders it. -/
def RequestError.message : RequestError → String
  | .apiRequestFailed s b => "API Request Failed: " ++ toString s ++ " - " ++ b
  | .indexError => "list index out of range"

/-- The column renaming `_make_request` applies to the header row. -/
def renameColumn (c : String) : String :=
  if c == "zip code tabulation area" then "zip_code"
  else if c == "state" then "state_fips"
  else if c == "county" then "county_fips"
  else c

/-- The tabular result of `_make_request`: header names and data rows. -/
structure DataFrame where
  columns : List String
  rows : List (List String)
deriving DecidableEq

/-- The body of `CensusAPIWrapper._make_request` applied to one response:
any status other than 200 raises the generic API failure immediately (no
retry); on status 200 the JSON rows become a dataframe whose columns are
the renamed header row and whose data is the remaining rows. -/
def make_request (response : HttpResponse) : Except RequestError DataFrame :=
  if response.status_code ≠ 200 then
    .error (.apiRequestFailed response.status_code response.text)
  else
    match response.json with
    | [] => .error .indexError
    | header :: rest => .ok ⟨header.map renameColumn, rest⟩

end CensusAPIWrapper

/-- Concrete county attribute row used in the closed instantiations. -/
def censusW : CensusRecord where
  GEOID := "01001"
  state_fips := "01"
  median_gross_rent := PVal.num 900
  median_household_income := PVal.num 40000
  rent_30_to_34_9_percent := PVal.num 100
  rent_35_to_39_9_percent := PVal.num 80
  rent_40_to_49_9_percent := PVal.num 60
  rent_50_percent_or_more := PVal.num 40
  total_renter_households_cost := PVal.num 1000

/-- Concrete FMR row matching `censusW`, with all five rents nonzero. -/
def fmrW : FmrRecord where
  GEOID := "01001"
  county_name := "Autauga County"
  state_name := "Alabama"
  fmr := ![PVal.num 700, PVal.num 800, PVal.num 1000, PVal.num 1300, PVal.num 1500]
  geometry := "POLYGON((0 0,1 0,1 1,0 0))"

/-- The single integrated row produced from `censusW` and `fmrW` with an
empty minimum-wage table. -/
def rowW : IntegratedRecord := computeRow (fillRow ⟨censusW, some fmrW⟩) PVal.nan

/-- Concrete FMR row whose GEOID matches no county row. -/
def fmrOrphan : FmrRecord where
  GEOID := "99999"
  county_name := "Nowhere County"
  state_name := "Nowhere"
  fmr := ![PVal.num 700, PVal.num 800, PVal.num 1000, PVal.num 1300, PVal.num 1500]
  geometry := "POLYGON EMPTY"

/-- Concrete county attribute row with a present median gross rent, used
together with a zero FMR figure. -/
def censusB : CensusRecord where
  GEOID := "02013"
  state_fips := "02"
  median_gross_rent := PVal.num 900
  median_household_income := PVal.num 50000
  rent_30_to_34_9_percent := PVal.num 10
  rent_35_to_39_9_percent := PVal.num 10
  rent_40_to_49_9_percent := PVal.num 10
  rent_50_percent_or_more := PVal.num 10
  total_renter_households_cost := PVal.num 100

/-- Concrete FMR row matching `censusB` whose studio rent is zero. -/
def fmrB : FmrRecord where
  GEOID := "02013"
  county_name := "Aleutians East"
  state_name := "Alaska"
  fmr := ![PVal.num 0, PVal.num 600, PVal.num 1000, PVal.num 1100, PVal.num 1200]
  geometry := "POLYGON EMPTY"

/-- The single integrated row produced from `censusB` and `fmrB` with an
empty minimum-wage table. -/
def rowB : IntegratedRecord := computeRow (fillRow ⟨censusB, some fmrB⟩) PVal.nan

/-- A cell passes the `== 0` test exactly when it is the finite number
zero. -/
lemma eqZero_iff {v : PVal} : v.eqZero = true ↔ v = PVal.num 0 := by
  cases v <;> simp [PVal.eqZero]

/-- Filling a non-infinite cell yields a finite number. -/
lemma fillna0_eq_num {v : PVal} (h : v.notInf = true) : ∃ q, v.fillna0 = PVal.num q := by
  cases v with
  | num a => exact ⟨a, rfl⟩
  | inf => simp [PVal.notInf] at h
  | ninf => simp [PVal.notInf] at h
  | nan => exact ⟨0, rfl⟩

/-- A cell is non-infinite exactly when it differs from both infinities. -/
lemma notInf_iff {v : PVal} : v.notInf = true ↔ v ≠ PVal.inf ∧ v ≠ PVal.ninf := by
  cases v <;> simp [PVal.notInf]

/-- Mapping infinities to zero commutes with the final `* 100`. -/
lemma replaceInf0_mul_num100 (x : PVal) :
    (x.replaceInf0).mul (PVal.num 100) = (x.mul (PVal.num 100)).replaceInf0 := by
  cases x with
  | num a => rfl
  | inf =>
      show PVal.num (0 * 100) = (if (0:ℚ) < 100 then PVal.inf
        else if (100:ℚ) < 0 then PVal.ninf else PVal.nan).replaceInf0
      norm_num
      rfl
  | ninf =>
      show PVal.num (0 * 100) = (if (0:ℚ) < 100 then PVal.ninf
        else if (100:ℚ) < 0 then PVal.inf else PVal.nan).replaceInf0
      norm_num
      rfl
  | nan => rfl

/-- After mapping infinities to zero, multiplying by 100 cannot produce an
infinity. -/
lemma replaceInf0_mul_num100_notInf (x : PVal) :
    ((x.replaceInf0).mul (PVal.num 100)).notInf = true := by
  cases x with
  | num a => rfl
  | inf => rfl
  | ninf => rfl
  | nan => rfl

/-- Closed form of the overwrite loop on `median_gross_rent`: NaN when
some FMR figure is zero, the incoming value otherwise. -/
lemma mgrAfterLoop_eq (fr : FilledRow) :
    mgrAfterLoop fr =
      if (fr.fmr 0).eqZero || (fr.fmr 1).eqZero || (fr.fmr 2).eqZero ||
          (fr.fmr 3).eqZero || (fr.fmr 4).eqZero then PVal.nan
      else fr.median_gross_rent := by
  simp only [mgrAfterLoop, List.foldl]
  cases h0 : (fr.fmr 0).eqZero <;> cases h1 : (fr.fmr 1).eqZero <;>
    cases h2 : (fr.fmr 2).eqZero <;> cases h3 : (fr.fmr 3).eqZero <;>
    cases h4 : (fr.fmr 4).eqZero <;> simp [h0, h1, h2, h3, h4]

/-- Every census row survives the left merge. -/
lemma exists_mem_mergeLeft {df_census : List CensusRecord} {df_fmr : List FmrRecord}
    {c : CensusRecord} (hc : c ∈ df_census) :
    ∃ m ∈ mergeLeft df_census df_fmr, m.census = c := by
  rcases h : df_fmr.filter (fun f => f.GEOID == c.GEOID) with _ | ⟨f, fs⟩
  · exact ⟨⟨c, none⟩, List.mem_flatMap.mpr ⟨c, hc, by simp [h]⟩, rfl⟩
  · refine ⟨⟨c, some f⟩, List.mem_flatMap.mpr ⟨c, hc, ?_⟩, rfl⟩
    simp only [h, List.isEmpty_cons, if_neg]
    exact List.mem_map.mpr ⟨f, List.mem_cons_self f fs, rfl⟩

/-- What membership in the left merge tells us: the census part is a row
of the census table, and a matched FMR part is a row of the FMR table
with the same GEOID. -/
lemma mem_mergeLeft_spec {df_census : List CensusRecord} {df_fmr : List FmrRecord}
    {m : MergedRow} (hm : m ∈ mergeLeft df_census df_fmr) :
    m.census ∈ df_census ∧
      ∀ f, m.fmrMatch = some f → f ∈ df_fmr ∧ f.GEOID = m.census.GEOID := by
  rcases List.mem_flatMap.mp hm with ⟨c, hc, hmem⟩
  by_cases h : (df_fmr.filter fun f => f.GEOID == c.GEOID).isEmpty
  · rw [if_pos h] at hmem
    rcases List.mem_singleton.mp hmem with rfl
    exact ⟨hc, fun f hf => by cases hf⟩
  · rw [if_neg h] at hmem
    rcases List.mem_map.mp hmem with ⟨f, hf, rfl⟩
    have hf2 := List.mem_filter.mp hf
    refine ⟨hc, fun g hg => ?_⟩
    cases hg
    exact ⟨hf2.1, by simpa using hf2.2⟩

/-- A census row whose GEOID has no match in the FMR table enters the
merge paired with no FMR data. -/
lemma mem_mergeLeft_of_unmatched {df_census : List CensusRecord} {df_fmr : List FmrRecord}
    {c : CensusRecord} (hc : c ∈ df_census)
    (hno : ∀ f ∈ df_fmr, f.GEOID ≠ c.GEOID) :
    (⟨c, none⟩ : MergedRow) ∈ mergeLeft df_census df_fmr := by
  have h : (df_fmr.filter fun f => f.GEOID == c.GEOID) = [] := by
    rw [List.filter_eq_nil_iff]
    intro f hf
    simpa using hno f hf
  exact List.mem_flatMap.mpr ⟨c, hc, by simp [h]⟩

/-- The secondary minimum-wage merge keeps every integrated row at least
once. -/
lemma exists_mem_mwMatches (min_wage_df : List MinWageRecord) (sf : String) :
    ∃ w, w ∈ mwMatches min_wage_df sf := by
  unfold mwMatches
  rcases h : min_wage_df.filter (fun w => w.state_fips == sf) with _ | ⟨w0, ws⟩
  · simp [h]
  · refine ⟨w0.min_wage, ?_⟩
    simp only [h, List.isEmpty_cons, if_neg]
    exact List.mem_map.mpr ⟨w0, List.mem_cons_self w0 ws, rfl⟩

/-- Membership in the integrated output, unfolded to its merge row and
its minimum-wage cell. -/
lemma mem_integrate_data_iff {df_census : List CensusRecord} {df_fmr : List FmrRecord}
    {min_wage_df : List MinWageRecord} {r : IntegratedRecord} :
    r ∈ integrate_data df_census df_fmr min_wage_df ↔
      ∃ m ∈ mergeLeft df_census df_fmr,
        ∃ w ∈ mwMatches min_wage_df (fillRow m).state_fips,
          r = computeRow (fillRow m) w := by
  simp [integrate_data, List.mem_flatMap, List.mem_map, eq_comm]

/-- Every bedroom count occurs in the loop list `range(5)`. -/
lemma fin5_mem_loop (b : Fin 5) : b ∈ ([0, 1, 2, 3, 4] : List (Fin 5)) := by
  fin_cases b <;> decide

/-- A CSV-shaped FMR row has no infinite rent cell. -/
lemma FmrRecord.csvShaped_notInf {f : FmrRecord} (h : f.csvShaped = true) (b : Fin 5) :
    (f.fmr b).notInf = true :=
  List.all_eq_true.mp h b (fin5_mem_loop b)

/-- A CSV-shaped census row has no infinite cell, column by column. -/
lemma CensusRecord.csvShaped_spec {c : CensusRecord} (h : c.csvShaped = true) :
    c.median_gross_rent.notInf = true ∧ c.median_household_income.notInf = true ∧
    c.rent_30_to_34_9_percent.notInf = true ∧ c.rent_35_to_39_9_percent.notInf = true ∧
    c.rent_40_to_49_9_percent.notInf = true ∧ c.rent_50_percent_or_more.notInf = true ∧
    c.total_renter_households_cost.notInf = true := by
  simp only [CensusRecord.csvShaped, Bool.and_eq_true] at h
  tauto

lemma computeRow_GEOID (fr : FilledRow) (w : PVal) : (computeRow fr w).GEOID = fr.GEOID := rfl

lemma computeRow_state_fips (fr : FilledRow) (w : PVal) :
    (computeRow fr w).state_fips = fr.state_fips := rfl

lemma computeRow_median_gross_rent (fr : FilledRow) (w : PVal) :
    (computeRow fr w).median_gross_rent = mgrAfterLoop fr := rfl

lemma computeRow_median_household_income (fr : FilledRow) (w : PVal) :
    (computeRow fr w).median_household_income = fr.median_household_income := rfl

lemma computeRow_fmr (fr : FilledRow) (w : PVal) : (computeRow fr w).fmr = fr.fmr := rfl

lemma computeRow_rent_to_income_ratio (fr : FilledRow) (w : PVal) (beds : Fin 5) :
    (computeRow fr w).rent_to_income_ratio beds =
      (((fr.fmr beds).mul (PVal.num 12)).div fr.median_household_income).mul (PVal.num 100) := rfl

lemma computeRow_fmr_vs_median_rent_diff (fr : FilledRow) (w : PVal) (beds : Fin 5) :
    (computeRow fr w).fmr_vs_median_rent_diff beds =
      (fr.fmr beds).sub (mgrAfterLoop fr) := rfl

lemma computeRow_fmr_vs_median_rent_percent (fr : FilledRow) (w : PVal) (beds : Fin 5) :
    (computeRow fr w).fmr_vs_median_rent_percent beds =
      if (!(mgrAfterLoop fr).eqZero) && (!(fr.fmr 1).eqZero) then
        (((fr.fmr beds).sub (mgrAfterLoop fr)).div (mgrAfterLoop fr)).mul (PVal.num 100)
      else PVal.nan := rfl

lemma computeRow_affordability_gap (fr : FilledRow) (w : PVal) (beds : Fin 5) :
    (computeRow fr w).affordability_gap beds =
      (if ((((fr.fmr beds).mul (PVal.num 12)).sub
          (fr.median_household_income.mul (PVal.num (3 / 10)))).pyMax0).eqZero then PVal.nan
        else (((fr.fmr beds).mul (PVal.num 12)).sub
          (fr.median_household_income.mul (PVal.num (3 / 10)))).pyMax0) := rfl

lemma computeRow_voucher_feasibility (fr : FilledRow) (w : PVal) (beds : Fin 5) :
    (computeRow fr w).voucher_feasibility beds =
      (((fr.fmr beds).div (mgrAfterLoop fr)).replaceInf0).mul (PVal.num 100) := rfl

lemma fillRow_median_gross_rent (m : MergedRow) :
    (fillRow m).median_gross_rent = m.census.median_gross_rent.fillna0 := rfl

lemma fillRow_median_household_income (m : MergedRow) :
    (fillRow m).median_household_income = m.census.median_household_income.fillna0 := rfl

lemma fillRow_fmr_none (m : MergedRow) (hm : m.fmrMatch = none) (b : Fin 5) :
    (fillRow m).fmr b = PVal.num 0 := by
  simp [fillRow, hm, PVal.fillna0]

lemma fillRow_fmr_some (m : MergedRow) {f : FmrRecord} (hm : m.fmrMatch = some f) (b : Fin 5) :
    (fillRow m).fmr b = (f.fmr b).fillna0 := by
  simp [fillRow, hm]

/-- The pipeline on the singleton tables around `censusW` yields exactly
`rowW`. -/
lemma rowW_mem : rowW ∈ integrate_data [censusW] [fmrW] [] := by
  have h : integrate_data [censusW] [fmrW] [] = [rowW] := rfl
  rw [h]
  exact List.mem_singleton.mpr rfl

/-- The pipeline on the singleton tables around `censusB` yields exactly
`rowB`. -/
lemma rowB_mem : rowB ∈ integrate_data [censusB] [fmrB] [] := by
  have h : integrate_data [censusB] [fmrB] [] = [rowB] := rfl
  rw [h]
  exact List.mem_singleton.mpr rfl

/-- C8: zero-padding of geographic ids is idempotent: applying the
5-width zero-padding to a string that is already 5 digits returns the
same string, as done to every id in `get_census_data` and
`load_fmr_data`. -/
theorem zfill_five_digit_fixed (s : String) (hlen : s.length = 5)
    (hdig : s.toList.all Char.isDigit = true) : zfill 5 s = s := by
  simp [zfill, hlen]

/-- C8 witness: the already padded id "01001" is returned unchanged. -/
theorem zfill_five_digit_fixed_witness : zfill 5 "01001" = "01001" :=
  zfill_five_digit_fixed "01001" (by decide) (by decide)

/-- C9: a fetch whose response status is not 200 raises exactly the one
generic failure carrying the HTTP status code and the response body text;
a fetch with status 200 never raises that failure and returns the parsed
rows as a dataframe with the renamed header. -/
theorem make_request_spec (response : CensusAPIWrapper.HttpResponse) :
    (response.status_code ≠ 200 →
      CensusAPIWrapper.make_request response =
        .error (.apiRequestFailed response.status_code response.text)) ∧
    (response.status_code = 200 →
      (∀ s t, CensusAPIWrapper.make_request response ≠
        .error (.apiRequestFailed s t)) ∧
      ∀ header rest, response.json = header :: rest →
        CensusAPIWrapper.make_request response =
          .ok ⟨header.map CensusAPIWrapper.renameColumn, rest⟩) := by
  constructor
  · intro h
    simp [CensusAPIWrapper.make_request, h]
  · intro h
    have hu : CensusAPIWrapper.make_request response =
        match response.json with
        | [] => .error .indexError
        | header :: rest => .ok ⟨header.map CensusAPIWrapper.renameColumn, rest⟩ := by
      simp [CensusAPIWrapper.make_request, h]
    constructor
    · intro s t hcontra
      rw [hu] at hcontra
      rcases hj : response.json with _ | ⟨hd, rest⟩ <;> rw [hj] at hcontra <;>
        simp at hcontra
    · intro header rest hj
      rw [hu, hj]

/-- C9 witness: a 404 response with body "Not Found" raises the generic
failure carrying 404 and the body, and a 200 response with one header row
and one data row parses into the renamed dataframe. -/
theorem make_request_spec_witness :
    CensusAPIWrapper.make_request ⟨404, "Not Found", []⟩ =
      .error (.apiRequestFailed 404 "Not Found") ∧
    CensusAPIWrapper.make_request ⟨200, "", [["NAME", "state"], ["Alabama", "01"]]⟩ =
      .ok ⟨["NAME", "state_fips"], [["Alabama", "01"]]⟩ :=
  ⟨(make_request_spec ⟨404, "Not Found", []⟩).1 (by decide),
   ((make_request_spec ⟨200, "", [["NAME", "state"], ["Alabama", "01"]]⟩).2 rfl).2
     ["NAME", "state"] [["Alabama", "01"]] rfl⟩

/-- C1 counterexample: the join is not rent-table-preserving.  With an
empty county table, the FMR row `fmrOrphan` is a record of the rent table
and the integrated output is empty, so no output record carries its
geographic id. -/
theorem join_not_rent_table_preserving :
    fmrOrphan ∈ [fmrOrphan] ∧ integrate_data [] [fmrOrphan] [] = [] :=
  ⟨List.mem_singleton.mpr rfl, rfl⟩

/-- C1 amended: the join is left (county-table-preserving): for every
record of the county attribute table, the integrated output contains a
record with the same geographic id, carrying the county columns with
missing values treated as zero after the join. -/
theorem integrate_data_preserves_census (df_census : List CensusRecord)
    (df_fmr : List FmrRecord) (min_wage_df : List MinWageRecord) {c : CensusRecord}
    (hc : c ∈ df_census) :
    ∃ r ∈ integrate_data df_census df_fmr min_wage_df,
      r.GEOID = c.GEOID ∧ r.state_fips = c.state_fips ∧
      r.median_household_income = c.median_household_income.fillna0 ∧
      r.total_renter_households_cost = c.total_renter_households_cost.fillna0 := by
  obtain ⟨m, hm, hmc⟩ := @exists_mem_mergeLeft df_census df_fmr c hc
  obtain ⟨w, hw⟩ := exists_mem_mwMatches min_wage_df (fillRow m).state_fips
  subst hmc
  exact ⟨computeRow (fillRow m) w, mem_integrate_data_iff.mpr ⟨m, hm, w, hw, rfl⟩,
    rfl, rfl, rfl, rfl⟩

/-- C1 amended witness: the concrete county row `censusW` survives into
the integrated output. -/
theorem integrate_data_preserves_census_witness :
    ∃ r ∈ integrate_data [censusW] [fmrW] [],
      r.GEOID = censusW.GEOID ∧ r.state_fips = censusW.state_fips ∧
      r.median_household_income = censusW.median_household_income.fillna0 ∧
      r.total_renter_households_cost = censusW.total_renter_households_cost.fillna0 :=
  integrate_data_preserves_census [censusW] [fmrW] [] (List.mem_singleton.mpr rfl)

/-- C7: a county record present in the county attribute table but
entirely absent from the rent table appears in the integrated output with
its five FMR inputs equal to zero rather than being dropped. -/
theorem unmatched_census_kept_with_zero_fmr (df_census : List CensusRecord)
    (df_fmr : List FmrRecord) (min_wage_df : List MinWageRecord) {c : CensusRecord}
    (hc : c ∈ df_census) (hno : ∀ f ∈ df_fmr, f.GEOID ≠ c.GEOID) :
    ∃ r ∈ integrate_data df_census df_fmr min_wage_df,
      r.GEOID = c.GEOID ∧ ∀ beds : Fin 5, r.fmr beds = PVal.num 0 := by
  obtain ⟨w, hw⟩ := exists_mem_mwMatches min_wage_df (fillRow ⟨c, none⟩).state_fips
  refine ⟨computeRow (fillRow ⟨c, none⟩) w,
    mem_integrate_data_iff.mpr ⟨⟨c, none⟩, mem_mergeLeft_of_unmatched hc hno, w, hw, rfl⟩,
    rfl, fun beds => ?_⟩
  rw [computeRow_fmr]
  exact fillRow_fmr_none ⟨c, none⟩ rfl beds

/-- C7 witness: the concrete county row `censusW` against an empty rent
table appears in the output with all FMR inputs zero. -/
theorem unmatched_census_kept_with_zero_fmr_witness :
    ∃ r ∈ integrate_data [censusW] [] [],
      r.GEOID = censusW.GEOID ∧ ∀ beds : Fin 5, r.fmr beds = PVal.num 0 :=
  unmatched_census_kept_with_zero_fmr [censusW] [] [] (List.mem_singleton.mpr rfl)
    (fun f hf => absurd hf (List.not_mem_nil f))

/-- C5: for every integrated record and bedroom count, the voucher
feasibility column equals fmr over median gross rent times 100 with the
infinities mapped to zero, so no infinity reaches the output table. -/
theorem voucher_feasibility_spec (df_census : List CensusRecord) (df_fmr : List FmrRecord)
    (min_wage_df : List MinWageRecord) (r : IntegratedRecord)
    (hr : r ∈ integrate_data df_census df_fmr min_wage_df) (beds : Fin 5) :
    r.voucher_feasibility beds =
      ((((r.fmr beds).div r.median_gross_rent).mul (PVal.num 100))).replaceInf0 ∧
    r.voucher_feasibility beds ≠ PVal.inf ∧ r.voucher_feasibility beds ≠ PVal.ninf := by
  rcases mem_integrate_data_iff.mp hr with ⟨m, hm, w, hw, rfl⟩
  constructor
  · rw [computeRow_voucher_feasibility, computeRow_fmr, computeRow_median_gross_rent,
      replaceInf0_mul_num100]
  · rw [computeRow_voucher_feasibility]
    exact notInf_iff.mp (replaceInf0_mul_num100_notInf _)

/-- C5 witness: the concrete integrated row has a finite two-bedroom
voucher feasibility equal to the mapped formula. -/
theorem voucher_feasibility_spec_witness :
    rowW.voucher_feasibility 2 =
      ((((rowW.fmr 2).div rowW.median_gross_rent).mul (PVal.num 100))).replaceInf0 ∧
    rowW.voucher_feasibility 2 ≠ PVal.inf ∧ rowW.voucher_feasibility 2 ≠ PVal.ninf :=
  voucher_feasibility_spec [censusW] [fmrW] [] rowW rowW_mem 2

/-- C6 counterexample: the difference column is not computed against the
median gross rent as it stands after the fill-with-zero step.  In the row
built from `censusB` (median gross rent 900) and `fmrB` (studio rent 0,
one-bedroom rent 600), the one-bedroom difference is NaN, while the
one-bedroom rent minus the post-fill median gross rent is -300. -/
theorem fmr_vs_median_rent_diff_counterexample :
    rowB ∈ integrate_data [censusB] [fmrB] [] ∧
    rowB.fmr_vs_median_rent_diff 1 = PVal.nan ∧
    (rowB.fmr 1).sub (censusB.median_gross_rent.fillna0) = PVal.num (-300) ∧
    PVal.nan ≠ PVal.num (-300) := by
  refine ⟨rowB_mem, rfl, ?_, fun h => PVal.noConfusion h⟩
  show PVal.num ((600 : ℚ) - 900) = PVal.num (-300)
  norm_num

/-- C6 amended: for every integrated record and bedroom count, the
difference column equals the FMR figure minus the median gross rent
column of the same output record (the value after the overwrite that
nulls it whenever some FMR figure is zero). -/
theorem fmr_vs_median_rent_diff_eq (df_census : List CensusRecord) (df_fmr : List FmrRecord)
    (min_wage_df : List MinWageRecord) (r : IntegratedRecord)
    (hr : r ∈ integrate_data df_census df_fmr min_wage_df) (beds : Fin 5) :
    r.fmr_vs_median_rent_diff beds = (r.fmr beds).sub r.median_gross_rent := by
  rcases mem_integrate_data_iff.mp hr with ⟨m, hm, w, hw, rfl⟩
  rw [computeRow_fmr_vs_median_rent_diff, computeRow_fmr, computeRow_median_gross_rent]

/-- C6 amended witness: the concrete integrated row satisfies the
difference formula at two bedrooms. -/
theorem fmr_vs_median_rent_diff_eq_witness :
    rowW.fmr_vs_median_rent_diff 2 = (rowW.fmr 2).sub rowW.median_gross_rent :=
  fmr_vs_median_rent_diff_eq [censusW] [fmrW] [] rowW rowW_mem 2

/-- C3: for every integrated record and bedroom count, the percent column
is null if the median gross rent column is zero or the one-bedroom FMR is
zero, and otherwise equals (fmr minus median gross rent) over median
gross rent times 100. -/
theorem fmr_vs_median_rent_percent_spec (df_census : List CensusRecord)
    (df_fmr : List FmrRecord) (min_wage_df : List MinWageRecord) (r : IntegratedRecord)
    (hr : r ∈ integrate_data df_census df_fmr min_wage_df) (beds : Fin 5) :
    ((r.median_gross_rent = PVal.num 0 ∨ r.fmr 1 = PVal.num 0) →
      r.fmr_vs_median_rent_percent beds = PVal.nan) ∧
    (¬(r.median_gross_rent = PVal.num 0 ∨ r.fmr 1 = PVal.num 0) →
      r.fmr_vs_median_rent_percent beds =
        (((r.fmr beds).sub r.median_gross_rent).div r.median_gross_rent).mul (PVal.num 100)) := by
  rcases mem_integrate_data_iff.mp hr with ⟨m, hm, w, hw, rfl⟩
  constructor
  · rintro (h | h)
    · rw [computeRow_median_gross_rent] at h
      have he : (mgrAfterLoop (fillRow m)).eqZero = true := eqZero_iff.mpr h
      rw [computeRow_fmr_vs_median_rent_percent]
      simp [he]
    · rw [computeRow_fmr] at h
      have he : ((fillRow m).fmr 1).eqZero = true := eqZero_iff.mpr h
      rw [computeRow_fmr_vs_median_rent_percent]
      simp [he]
  · intro h
    push_neg at h
    obtain ⟨h1, h2⟩ := h
    rw [computeRow_median_gross_rent] at h1
    rw [computeRow_fmr] at h2
    have he1 : (mgrAfterLoop (fillRow m)).eqZero = false := by
      cases hb : (mgrAfterLoop (fillRow m)).eqZero
      · rfl
      · exact absurd (eqZero_iff.mp hb) h1
    have he2 : ((fillRow m).fmr 1).eqZero = false := by
      cases hb : ((fillRow m).fmr 1).eqZero
      · rfl
      · exact absurd (eqZero_iff.mp hb) h2
    rw [computeRow_fmr_vs_median_rent_percent, computeRow_fmr, computeRow_median_gross_rent]
    simp [he1, he2]

/-- C3 witness: in the concrete integrated row neither trigger holds and
the studio percent column equals the formula. -/
theorem fmr_vs_median_rent_percent_spec_witness :
    ((rowW.median_gross_rent = PVal.num 0 ∨ rowW.fmr 1 = PVal.num 0) →
      rowW.fmr_vs_median_rent_percent 0 = PVal.nan) ∧
    (¬(rowW.median_gross_rent = PVal.num 0 ∨ rowW.fmr 1 = PVal.num 0) →
      rowW.fmr_vs_median_rent_percent 0 =
        (((rowW.fmr 0).sub rowW.median_gross_rent).div rowW.median_gross_rent).mul
          (PVal.num 100)) :=
  fmr_vs_median_rent_percent_spec [censusW] [fmrW] [] rowW rowW_mem 0

/-- C10: in the integrated output the median gross rent column is null on
every record in which some FMR figure equals zero, despite the earlier
fill-with-zero; on records whose five FMR figures are all nonzero it
keeps the post-fill value of its county row. -/
theorem median_gross_rent_overwrite_spec (df_census : List CensusRecord)
    (df_fmr : List FmrRecord) (min_wage_df : List MinWageRecord) (r : IntegratedRecord)
    (hr : r ∈ integrate_data df_census df_fmr min_wage_df) :
    ((∃ beds : Fin 5, r.fmr beds = PVal.num 0) → r.median_gross_rent = PVal.nan) ∧
    ((∀ beds : Fin 5, r.fmr beds ≠ PVal.num 0) →
      ∃ c ∈ df_census, r.median_gross_rent = c.median_gross_rent.fillna0) := by
  rcases mem_integrate_data_iff.mp hr with ⟨m, hm, w, hw, rfl⟩
  constructor
  · rintro ⟨beds, hb⟩
    rw [computeRow_fmr] at hb
    have he : ((fillRow m).fmr beds).eqZero = true := eqZero_iff.mpr hb
    rw [computeRow_median_gross_rent, mgrAfterLoop_eq]
    fin_cases beds <;> simp_all
  · intro hall
    have hf : ∀ beds : Fin 5, ((fillRow m).fmr beds).eqZero = false := fun beds => by
      cases hb : ((fillRow m).fmr beds).eqZero
      · rfl
      · exact absurd (eqZero_iff.mp hb) (hall beds)
    refine ⟨m.census, (mem_mergeLeft_spec hm).1, ?_⟩
    rw [computeRow_median_gross_rent, mgrAfterLoop_eq]
    simp [hf 0, hf 1, hf 2, hf 3, hf 4, fillRow_median_gross_rent]

/-- C10 witness: the concrete integrated row with a zero studio FMR has a
null median gross rent. -/
theorem median_gross_rent_overwrite_spec_witness :
    ((∃ beds : Fin 5, rowB.fmr beds = PVal.num 0) → rowB.median_gross_rent = PVal.nan) ∧
    ((∀ beds : Fin 5, rowB.fmr beds ≠ PVal.num 0) →
      ∃ c ∈ [censusB], rowB.median_gross_rent = c.median_gross_rent.fillna0) :=
  median_gross_rent_overwrite_spec [censusB] [fmrB] [] rowB rowB_mem

/-- C2: for every integrated record built from CSV-shaped tables and
every bedroom count, the rent-to-income ratio equals fmr times 12 over
median household income times 100 whenever the income is nonzero, and is
a well-defined non-numeric cell (NaN or an infinity, never an exception)
when the income is zero. -/
theorem rent_to_income_ratio_spec (df_census : List CensusRecord) (df_fmr : List FmrRecord)
    (min_wage_df : List MinWageRecord)
    (hcs : ∀ c ∈ df_census, c.csvShaped = true)
    (hfs : ∀ f ∈ df_fmr, f.csvShaped = true)
    (r : IntegratedRecord) (hr : r ∈ integrate_data df_census df_fmr min_wage_df)
    (beds : Fin 5) :
    ∃ fq iq : ℚ, r.fmr beds = PVal.num fq ∧ r.median_household_income = PVal.num iq ∧
      (iq ≠ 0 → r.rent_to_income_ratio beds = PVal.num (fq * 12 / iq * 100)) ∧
      (iq = 0 → r.rent_to_income_ratio beds = PVal.nan ∨
        r.rent_to_income_ratio beds = PVal.inf ∨
        r.rent_to_income_ratio beds = PVal.ninf) := by
  rcases mem_integrate_data_iff.mp hr with ⟨m, hm, w, hw, rfl⟩
  obtain ⟨hcmem, hmatch⟩ := mem_mergeLeft_spec hm
  obtain ⟨iq, hiq⟩ := fillna0_eq_num ((CensusRecord.csvShaped_spec (hcs m.census hcmem)).2.1)
  have hinc : (fillRow m).median_household_income = PVal.num iq := by
    rw [fillRow_median_household_income]; exact hiq
  have hfqe : ∃ fq : ℚ, (fillRow m).fmr beds = PVal.num fq := by
    rcases hmt : m.fmrMatch with _ | f
    · exact ⟨0, fillRow_fmr_none m hmt beds⟩
    · obtain ⟨hfmem, _⟩ := hmatch f hmt
      obtain ⟨fq, hfq⟩ := fillna0_eq_num (FmrRecord.csvShaped_notInf (hfs f hfmem) beds)
      exact ⟨fq, (fillRow_fmr_some m hmt beds).trans hfq⟩
  obtain ⟨fq, hfq⟩ := hfqe
  refine ⟨fq, iq, by rw [computeRow_fmr]; exact hfq,
    by rw [computeRow_median_household_income]; exact hinc, ?_, ?_⟩
  · intro hne
    rw [computeRow_rent_to_income_ratio, hfq, hinc,
      show (PVal.num fq).mul (PVal.num 12) = PVal.num (fq * 12) from rfl]
    rw [show (PVal.num (fq * 12)).div (PVal.num iq) = PVal.num (fq * 12 / iq) from by
      simp [PVal.div, hne]]
    rfl
  · intro h0
    subst h0
    rw [computeRow_rent_to_income_ratio, hfq, hinc,
      show (PVal.num fq).mul (PVal.num 12) = PVal.num (fq * 12) from rfl]
    rcases lt_trichotomy 0 (fq * 12) with hpos | hzero | hneg
    · right; left
      rw [show (PVal.num (fq * 12)).div (PVal.num 0) = PVal.inf from by
        simp [PVal.div, hpos]]
      norm_num [PVal.mul]
    · left
      rw [show (PVal.num (fq * 12)).div (PVal.num 0) = PVal.nan from by
        simp [PVal.div, ← hzero]]
      rfl
    · right; right
      rw [show (PVal.num (fq * 12)).div (PVal.num 0) = PVal.ninf from by
        simp [PVal.div, hneg, asymm hneg]]
      norm_num [PVal.mul]

/-- C2 witness: in the concrete integrated row the income is 40000 and
the two-bedroom ratio obeys the formula. -/
theorem rent_to_income_ratio_spec_witness :
    ∃ fq iq : ℚ, rowW.fmr 2 = PVal.num fq ∧
      rowW.median_household_income = PVal.num iq ∧
      (iq ≠ 0 → rowW.rent_to_income_ratio 2 = PVal.num (fq * 12 / iq * 100)) ∧
      (iq = 0 → rowW.rent_to_income_ratio 2 = PVal.nan ∨
        rowW.rent_to_income_ratio 2 = PVal.inf ∨
        rowW.rent_to_income_ratio 2 = PVal.ninf) :=
  rent_to_income_ratio_spec [censusW] [fmrW] [] (by decide) (by decide) rowW rowW_mem 2

/-- The clamp-then-null step of the affordability gap, in closed form on
a finite cell: NaN exactly on a nonpositive unclamped value. -/
lemma gap_if (uq : ℚ) :
    (if ((PVal.num uq).pyMax0).eqZero then PVal.nan else (PVal.num uq).pyMax0) =
      if uq ≤ 0 then PVal.nan else PVal.num uq := by
  rcases lt_trichotomy uq 0 with hlt | heq | hgt
  · have hp : (PVal.num uq).pyMax0 = PVal.num 0 := by simp [PVal.pyMax0, PVal.ltb, hlt]
    simp [hp, PVal.eqZero, hlt.le]
  · subst heq
    simp [PVal.pyMax0, PVal.ltb, PVal.eqZero]
  · have hp : (PVal.num uq).pyMax0 = PVal.num uq := by
      simp [PVal.pyMax0, PVal.ltb, not_lt.mpr hgt.le]
    simp [hp, PVal.eqZero, hgt.ne', not_le.mpr hgt]

/-- C4: for every integrated record built from CSV-shaped tables and
every bedroom count, the affordability gap is never negative when
non-null, and it is null exactly when the unclamped value
fmr times 12 minus income times 0.3 is nonpositive. -/
theorem affordability_gap_spec (df_census : List CensusRecord) (df_fmr : List FmrRecord)
    (min_wage_df : List MinWageRecord)
    (hcs : ∀ c ∈ df_census, c.csvShaped = true)
    (hfs : ∀ f ∈ df_fmr, f.csvShaped = true)
    (r : IntegratedRecord) (hr : r ∈ integrate_data df_census df_fmr min_wage_df)
    (beds : Fin 5) :
    ∃ fq iq : ℚ, r.fmr beds = PVal.num fq ∧ r.median_household_income = PVal.num iq ∧
      (r.affordability_gap beds = PVal.nan ↔ fq * 12 - iq * (3 / 10) ≤ 0) ∧
      (∀ v : ℚ, r.affordability_gap beds = PVal.num v → 0 ≤ v) := by
  rcases mem_integrate_data_iff.mp hr with ⟨m, hm, w, hw, rfl⟩
  obtain ⟨hcmem, hmatch⟩ := mem_mergeLeft_spec hm
  obtain ⟨iq, hiq⟩ := fillna0_eq_num ((CensusRecord.csvShaped_spec (hcs m.census hcmem)).2.1)
  have hinc : (fillRow m).median_household_income = PVal.num iq := by
    rw [fillRow_median_household_income]; exact hiq
  have hfqe : ∃ fq : ℚ, (fillRow m).fmr beds = PVal.num fq := by
    rcases hmt : m.fmrMatch with _ | f
    · exact ⟨0, fillRow_fmr_none m hmt beds⟩
    · obtain ⟨hfmem, _⟩ := hmatch f hmt
      obtain ⟨fq, hfq⟩ := fillna0_eq_num (FmrRecord.csvShaped_notInf (hfs f hfmem) beds)
      exact ⟨fq, (fillRow_fmr_some m hmt beds).trans hfq⟩
  obtain ⟨fq, hfq⟩ := hfqe
  have hgap : (computeRow (fillRow m) w).affordability_gap beds =
      if (fq * 12 - iq * (3 / 10) : ℚ) ≤ 0 then PVal.nan
      else PVal.num (fq * 12 - iq * (3 / 10)) := by
    rw [computeRow_affordability_gap, hfq, hinc]
    exact gap_if (fq * 12 - iq * (3 / 10))
  refine ⟨fq, iq, by rw [computeRow_fmr]; exact hfq,
    by rw [computeRow_median_household_income]; exact hinc, ?_, ?_⟩
  · rw [hgap]
    by_cases hle : (fq * 12 - iq * (3 / 10) : ℚ) ≤ 0
    · simp [hle]
    · simp [hle]
  · intro v hv
    rw [hgap] at hv
    by_cases hle : (fq * 12 - iq * (3 / 10) : ℚ) ≤ 0
    · rw [if_pos hle] at hv
      cases hv
    · rw [if_neg hle] at hv
      injection hv with h
      subst h
      exact (not_le.mp hle).le

/-- C4 witness: in the concrete integrated row the two-bedroom gap obeys
the clamp-then-null policy. -/
theorem affordability_gap_spec_witness :
    ∃ fq iq : ℚ, rowW.fmr 2 = PVal.num fq ∧ rowW.median_household_income = PVal.num iq ∧
      (rowW.affordability_gap 2 = PVal.nan ↔ fq * 12 - iq * (3 / 10) ≤ 0) ∧
      (∀ v : ℚ, rowW.affordability_gap 2 = PVal.num v → 0 ≤ v) :=
  affordability_gap_spec [censusW] [fmrW] [] (by decide) (by decide) rowW rowW_mem 2

end FmrCensus

